import Mathlib

/-!
Shallow embedding of `blogger_news_poster.py` (Ada.lk → Blogger automation).

Python strings are modelled as `List Char` (named `Str`); file and network
I/O is modelled by passing the file contents / network outcomes explicitly.
Each definition mirrors one Python function of the script and keeps its name
where Lean allows it.
-/

namespace AdaLK

/-- Python strings, modelled as lists of characters. -/
abbrev Str := List Char

/-- Python `str.strip()`: drop leading and trailing whitespace.
(The script only ever strips ASCII whitespace, which `Char.isWhitespace`
covers.) -/
def pyStrip (s : Str) : Str :=
  ((s.dropWhile Char.isWhitespace).reverse.dropWhile Char.isWhitespace).reverse

/-- Split a string at the first occurrence of `sep`:
`splitFirst sep s = some (a, b)` means `s = a ++ sep ++ b` with the
occurrence of `sep` after `a` being the leftmost one.  `none` means `sep`
does not occur in `s` (for nonempty `sep`). -/
def splitFirst (sep : Str) : Str → Option (Str × Str)
  | [] => if sep = [] then some ([], []) else none
  | c :: rest =>
    if sep.isPrefixOf (c :: rest) then some ([], (c :: rest).drop sep.length)
    else
      match splitFirst sep rest with
      | some (a, b) => some (c :: a, b)
      | none => none

/-- Structural worker for `pySplit`.  When `sep` is nonempty, every
recursive call strictly shrinks the remaining string (`splitFirst` only
returns a remainder shorter than its input), so a fuel of `s.length` is
never exhausted before the natural recursion ends: at fuel `0` the
remaining string is empty and `splitFirst` returns `none` anyway. -/
def pySplitFuel (sep : Str) : Nat → Str → List Str
  | 0, s => [s]
  | fuel + 1, s =>
    match splitFirst sep s with
    | none => [s]
    | some (a, b) => a :: pySplitFuel sep fuel b

/-- Python `s.split(sep)` for a nonempty separator (the script always calls
it with `"\n\n"`); Python raises on an empty separator, modelled here by
returning the string unsplit. -/
def pySplit (sep : Str) (s : Str) : List Str :=
  if sep = [] then [s] else pySplitFuel sep s.length s

/-- Python `sep.join(parts)`. -/
def joinSep (sep : Str) : List Str → Str
  | [] => []
  | [x] => x
  | x :: y :: ys => x ++ sep ++ joinSep sep (y :: ys)

/-- Python `content.replace('\n', '\n\n')` (single-character pattern, so the
non-overlapping left-to-right replacement is a per-character map). -/
def pyReplaceNL : Str → Str
  | [] => []
  | c :: rest =>
    if c = '\n' then '\n' :: '\n' :: pyReplaceNL rest else c :: pyReplaceNL rest

/-- Python truthiness of an optional string: `None` and `""` are falsy. -/
def optTruthy : Option Str → Bool
  | none => false
  | some s => !s.isEmpty

/-- Python substring containment `needle in hay`. -/
def containsSub (needle hay : Str) : Bool :=
  match splitFirst needle hay with
  | some _ => true
  | none => false

/-- Broken-down time produced by `datetime.strptime`. -/
structure PyTime where
  day : Nat
  month : Nat
  year : Nat
  hour : Nat
  minute : Nat
  second : Nat
deriving DecidableEq, Repr

/-- Split into maximal whitespace-separated tokens (the `\s+` runs that
`strptime` accepts between format fields). -/
def wsTokensAux : Str → Str → List Str
  | [], acc => if acc.isEmpty then [] else [acc.reverse]
  | c :: rest, acc =>
    if c.isWhitespace then
      if acc.isEmpty then wsTokensAux rest [] else acc.reverse :: wsTokensAux rest []
    else wsTokensAux rest (c :: acc)

def wsTokens (s : Str) : List Str :=
  wsTokensAux s []

/-- Numeric value of a digit string. -/
def digitsToNat (s : Str) : Nat :=
  s.foldl (fun n c => n * 10 + (c.toNat - 48)) 0

/-- Parse a 1- or 2-digit numeric field with an inclusive range check (the
shape `strptime`'s field patterns accept, combined with the range check
`datetime` performs on the parsed value). -/
def parseField (lo hi : Nat) (s : Str) : Option Nat :=
  if s ≠ [] ∧ s.length ≤ 2 ∧ s.all Char.isDigit then
    let n := digitsToNat s
    if lo ≤ n ∧ n ≤ hi then some n else none
  else none

def isLeapYear (y : Nat) : Bool :=
  y % 4 = 0 ∧ (y % 100 ≠ 0 ∨ y % 400 = 0)

def daysInMonth (y m : Nat) : Nat :=
  if m = 2 then (if isLeapYear y then 29 else 28)
  else if m = 4 ∨ m = 6 ∨ m = 9 ∨ m = 11 then 30
  else 31

/-- Python `datetime.strptime(s, "%d %m %Y %H:%M:%S")`: day, month, 4-digit
year and `H:M:S` separated by whitespace runs, anchored at both ends (no
leading or trailing whitespace), with `datetime`'s range validation (year
at least 1, day within the month, seconds at most 59).  `none` models the
`ValueError` the script catches. -/
def strptimeDMYHMS (s : Str) : Option PyTime :=
  match s with
  | [] => none
  | c :: _ =>
    if c.isWhitespace then none
    else if (s.getLast?.map Char.isWhitespace).getD true then none
    else
      match wsTokens s with
      | [ds, ms, ys, ts] =>
        match parseField 1 31 ds, parseField 1 12 ms with
        | some d, some m =>
          if ys.length = 4 ∧ ys.all Char.isDigit then
            let y := digitsToNat ys
            if 1 ≤ y ∧ d ≤ daysInMonth y m then
              match pySplit [':'] ts with
              | [hs, mins, secs] =>
                match parseField 0 23 hs, parseField 0 59 mins, parseField 0 59 secs with
                | some h, some mi, some sec => some ⟨d, m, y, h, mi, sec⟩
                | _, _, _ => none
              | _ => none
            else none
          else none
        | _, _ => none
      | _ => none

def monthName (m : Nat) : Str :=
  (match m with
   | 1 => "January" | 2 => "February" | 3 => "March" | 4 => "April"
   | 5 => "May" | 6 => "June" | 7 => "July" | 8 => "August"
   | 9 => "September" | 10 => "October" | 11 => "November" | _ => "December").toList

def natToDigits (n : Nat) : Str :=
  Nat.toDigits 10 n

def pad2 (n : Nat) : Str :=
  if n < 10 then '0' :: natToDigits n else natToDigits n

/-- Python `dt.strftime("%B %d, %Y, %I:%M %p")`: full month name, zero-padded
day, year, 12-hour clock with zero-padded hour and minute, AM/PM. -/
def strftimeLong (t : PyTime) : Str :=
  let h12 := if t.hour % 12 = 0 then 12 else t.hour % 12
  let ampm := if t.hour < 12 then "AM" else "PM"
  monthName t.month ++ (' ' :: pad2 t.day) ++ ", ".toList ++ natToDigits t.year
    ++ ", ".toList ++ pad2 h12 ++ (':' :: pad2 t.minute) ++ (' ' :: ampm.toList)

/-- The `try: strptime/strftime except ValueError: raw` idiom used both in
`format_news_to_markdown` and in `main`. -/
def formatNewsDate (s : Str) : Str :=
  match strptimeDMYHMS s with
  | some t => strftimeLong t
  | none => s

/-- One scraped article, as assembled by `fetch_news`. -/
structure NewsItem where
  link : Str
  title : Str
  date : Str
  short_desc : Str
  image_url : Option Str
  full_content : Str
deriving DecidableEq, Repr

/-- One record of the `news_log.json` ledger. -/
structure LedgerEntry where
  url : Str
  title : Str
  post_id : Str
  date_posted : Str
deriving DecidableEq, Repr

/-- One record of the `failed_posts.json` side file. -/
structure FailedPost where
  title : Str
  content : Str
  image_url : Option Str
deriving DecidableEq, Repr

/-- Network interactions performed inside `post_to_blogger` after credential
acquisition: the blog-access verification `GET` and the post-creation
`insert` carrying the submitted title and content. -/
inductive NetCall where
  | blogGet : NetCall
  | postInsert (title content : Str) : NetCall
deriving DecidableEq, Repr

/-- The external-world outcomes one call of `post_to_blogger` can observe:
whether `get_blogger_credentials` yields credentials, whether the
blog-access verification succeeds, and the platform's answer to the
`insert` call (`none` models a raised exception). -/
structure BloggerEnv where
  creds_ok : Bool
  blog_access_ok : Bool
  insert_result : Option Str
deriving DecidableEq, Repr

/-- Result of one `post_to_blogger` call: the returned post id (`None` on
failure), the network calls performed, and the distinctive error message
printed by the failing branch (the script prints a different message in
each failure branch). -/
structure PostResult where
  post_id : Option Str
  calls : List NetCall
  error_msg : Option Str
deriving DecidableEq, Repr

def ERR_CREDS : Str := "Error: Failed to get credentials".toList

def ERR_BLOG_ACCESS : Str := "Error accessing blog".toList

def ERR_EMPTY_CONTENT : Str := "Error: Post content is empty".toList

def ERR_EMPTY_TITLE : Str := "Error: Post title is empty".toList

def ERR_POSTING : Str := "Error posting to Blogger".toList

def DIV_OPEN : Str :=
  "<div style=\"font-family: Arial, sans-serif; line-height: 1.6;\">".toList

def DIV_CLOSE : Str := "</div>".toList

def imgTag (u title : Str) : Str :=
  "<img src=\"".toList ++ u ++ "\" alt=\"".toList ++ title
    ++ "\" style=\"max-width: 100%; height: auto; margin-bottom: 20px;\"><br>".toList

def P_OPEN : Str := "<p style=\"margin-bottom: 15px;\">".toList

def P_CLOSE : Str := "</p>".toList

/-- The HTML formatting step of `post_to_blogger`: wrapper div, optional
image tag (Python truthiness: `None` or `""` gives no image), each
double-newline-delimited paragraph stripped and wrapped in a `<p>` tag,
empty paragraphs dropped. -/
def format_content (title content : Str) (image_url : Option Str) : Str :=
  let withImg := DIV_OPEN ++
    (match image_url with
     | some u => if u.isEmpty then [] else imgTag u title
     | none => [])
  let paras := pySplit "\n\n".toList content
  let body :=
    (paras.map fun p => if (pyStrip p).isEmpty then [] else P_OPEN ++ pyStrip p ++ P_CLOSE).flatten
  withImg ++ body ++ DIV_CLOSE

def MAX_CONTENT : Nat := 1000000

/-- The size-limit step of `post_to_blogger` (lines 124-127): content longer
than 1,000,000 characters is truncated to the first 1,000,000. -/
def truncate_content (s : Str) : Str :=
  if s.length > MAX_CONTENT then s.take MAX_CONTENT else s

/-- Shallow embedding of `post_to_blogger(title, content, image_url)`.
The control flow mirrors the source: credential acquisition first, then the
blog-access verification `GET`, then the content formatting and the
emptiness validations, then truncation and the `insert` call; every failure
is caught and turned into a `None` result with a branch-specific message. -/
def post_to_blogger (env : BloggerEnv) (title content : Str)
    (image_url : Option Str) : PostResult :=
  if !env.creds_ok then ⟨none, [], some ERR_CREDS⟩
  else if !env.blog_access_ok then ⟨none, [.blogGet], some ERR_BLOG_ACCESS⟩
  else
    let formatted := format_content title content image_url
    if formatted.isEmpty || (pyStrip formatted).isEmpty then
      ⟨none, [.blogGet], some ERR_EMPTY_CONTENT⟩
    else if title.isEmpty || (pyStrip title).isEmpty then
      ⟨none, [.blogGet], some ERR_EMPTY_TITLE⟩
    else
      let submitted := truncate_content formatted
      match env.insert_result with
      | some pid => ⟨some pid, [.blogGet, .postInsert title submitted], none⟩
      | none => ⟨none, [.blogGet, .postInsert title submitted], some ERR_POSTING⟩

/-- One article page as the scraper sees it: the HTTP status and, when the
page parses, the text of the paragraphs inside the `single-body-wrap` div
(`none` when that div is absent).  HTML parsing itself is an external
collaborator. -/
structure ArticlePage where
  status_code : Nat
  body_div : Option (List Str)
deriving DecidableEq, Repr

def FULL_NOT_FOUND : Str := "Full content not found.".toList

/-- Shallow embedding of `fetch_full_content(news_url)`: a non-200 response
yields the empty string; a 200 response yields the stripped paragraph texts
joined with blank lines, or the explicit marker when the content div is
missing. -/
def fetch_full_content (page : ArticlePage) : Str :=
  if page.status_code ≠ 200 then []
  else
    match page.body_div with
    | some paras => joinSep "\n\n".toList (paras.map pyStrip)
    | none => FULL_NOT_FOUND

/-- One entry of the listing page, as parsed from its markup (external
collaborator). -/
structure ListingEntry where
  link : Str
  title : Str
  date : Str
  short_desc : Str
  image_url : Option Str
deriving DecidableEq, Repr

/-- The scraping environment: listing-page status and entries, and each
article page keyed by its URL. -/
structure ScrapeEnv where
  listing_status : Nat
  listing_entries : List ListingEntry
  article_page : Str → ArticlePage

/-- Shallow embedding of `fetch_news()`: a non-200 listing response yields
no items; otherwise each listing entry becomes a `NewsItem` whose body is
fetched via `fetch_full_content`. -/
def fetch_news (env : ScrapeEnv) : List NewsItem :=
  if env.listing_status ≠ 200 then []
  else
    env.listing_entries.map fun e =>
      ⟨e.link, e.title, e.date, e.short_desc, e.image_url,
        fetch_full_content (env.article_page e.link)⟩

/-- Shallow embedding of `update_log(new_posts)` over the ledger file's
contents: each new post is appended unless some entry already in the
(growing) list matches its url or its title. -/
def update_log (logged_data : List LedgerEntry) (new_posts : List LedgerEntry) :
    List LedgerEntry :=
  new_posts.foldl
    (fun acc post =>
      if acc.any (fun e => e.url == post.url || e.title == post.title) then acc
      else acc ++ [post])
    logged_data

/-- Rendering of one item in `format_news_to_markdown`. -/
def format_news_item (item : NewsItem) : Str :=
  "\n\n---\n\n## ".toList ++ item.title ++ "\n\nPublished on ".toList
    ++ formatNewsDate item.date ++ "\n\n".toList ++ item.full_content
    ++ (if optTruthy item.image_url then
          "\n\n![Image](".toList ++ item.image_url.getD [] ++ ")\n\n".toList
        else [])

/-- Shallow embedding of `format_news_to_markdown(news_items)`. -/
def format_news_to_markdown (news_items : List NewsItem) : Str :=
  (news_items.map format_news_item).flatten

def MARKER_START : Str := "<!-- STATIC-START -->".toList

def MARKER_END : Str := "<!-- STATIC-END -->".toList

/-- Shallow embedding of `update_news_md(new_news)` over the README file's
contents (`none` when the file does not exist).  When both markers occur,
Python's `content.split(end)[0] + end` is the text before the first
occurrence of the end marker plus the marker, and `content.split(end)[1]`
is the text between the first occurrence and the next one (or the rest of
the string), which is then stripped; otherwise both parts stay empty and
the prior document is dropped. -/
def update_news_md (existing : Option Str) (new_news : List NewsItem) : Str :=
  let sd : Str × Str :=
    match existing with
    | none => ([], [])
    | some content =>
      if containsSub MARKER_START content && containsSub MARKER_END content then
        match splitFirst MARKER_END content with
        | some (pre, rest) =>
          (pre ++ MARKER_END,
            pyStrip (match splitFirst MARKER_END rest with
                     | some (a, _) => a
                     | none => rest))
        | none => ([], [])
      else ([], [])
  sd.1 ++ "\n".toList ++ format_news_to_markdown new_news ++ "\n".toList ++ sd.2

/-- One pass of the retry loop body: re-invoke `post_to_blogger` for every
still-failed post, counting successes and collecting the rest.  `k` is the
index into the stream of per-call environments `envs`. -/
def retry_pass (envs : Nat → BloggerEnv) : Nat → List FailedPost →
    Nat × List FailedPost × Nat
  | k, [] => (0, [], k)
  | k, p :: rest =>
    let r := post_to_blogger (envs k) p.title p.content p.image_url
    let (s, still, kf) := retry_pass envs (k + 1) rest
    match r.post_id with
    | some _ => (s + 1, still, kf)
    | none => (s, p :: still, kf)

/-- Shallow embedding of `retry_failed_posts(failed_posts, max_retries)`:
at most `max_retries` batch passes, stopping early once the failed set is
empty; returns the success count, the still-failed posts and the final
call-stream index. -/
def retry_failed_posts (envs : Nat → BloggerEnv) : Nat → List FailedPost → Nat →
    Nat × List FailedPost × Nat
  | k, failed, 0 => (0, failed, k)
  | k, failed, n + 1 =>
    if failed.isEmpty then (0, failed, k)
    else
      let (s, still, k1) := retry_pass envs k failed
      let (s2, still2, k2) := retry_failed_posts envs k1 still n
      (s + s2, still2, k2)

/-- Number of batch passes `retry_failed_posts` actually performs. -/
def retry_iterations (envs : Nat → BloggerEnv) : Nat → List FailedPost → Nat → Nat
  | _, _, 0 => 0
  | k, failed, n + 1 =>
    if failed.isEmpty then 0
    else
      let (_, still, k1) := retry_pass envs k failed
      1 + retry_iterations envs k1 still n

/-- The per-item dedup test of `main` (lines 338-343): an item is new when
no logged post matches its link by url or its title by title. -/
def isNewItem (logged_posts : List LedgerEntry) (news : NewsItem) : Bool :=
  !(logged_posts.any fun post => post.url == news.link || post.title == news.title)

/-- The content `main` builds for one article before publishing: the
formatted date line, a blank line, the full content, then every newline
doubled. -/
def build_content (news : NewsItem) : Str :=
  pyReplaceNL ("Published on ".toList ++ formatNewsDate news.date
    ++ "\n\n".toList ++ news.full_content)

/-- The initial posting loop of `main`: for each new item, publish once;
successes become ledger records (with `date_posted` set to `now`),
failures become `FailedPost` records.  Returns the success count, the
posted records, the failed records and the final call-stream index. -/
def initial_pass (envs : Nat → BloggerEnv) (now : Str) : Nat → List NewsItem →
    Nat × List LedgerEntry × List FailedPost × Nat
  | k, [] => (0, [], [], k)
  | k, news :: rest =>
    let content := build_content news
    let r := post_to_blogger (envs k) news.title content news.image_url
    let (s, posted, failed, kf) := initial_pass envs now (k + 1) rest
    match r.post_id with
    | some pid => (s + 1, ⟨news.link, news.title, pid, now⟩ :: posted, failed, kf)
    | none => (s, posted, ⟨news.title, content, news.image_url⟩ :: failed, kf)

/-- Observable outcome of one `main` run: final ledger file contents, final
README contents (`none` when the file was not rewritten), the
`failed_posts.json` contents (`none` when not written), and the reported
count of successful posts. -/
structure MainResult where
  ledger : List LedgerEntry
  readme : Option Str
  failed_file : Option (List FailedPost)
  successful_posts : Nat
deriving DecidableEq, Repr

/-- Shallow embedding of the posting phase of `main()` (after the up-front
credential and blog checks): filter the scraped items against the ledger,
publish each new item once, then — only when at least one initial publish
succeeded — rewrite the ledger with the initial successes and the README
with ALL filtered items; finally retry the failures (3 attempts) and write
the still-failed ones to the side file.  Retry successes are counted but
not recorded in the ledger. -/
def main_pipeline (envs : Nat → BloggerEnv) (now : Str) (news_items : List NewsItem)
    (logged_posts : List LedgerEntry) (existing_readme : Option Str) : MainResult :=
  let new_news := news_items.filter (isNewItem logged_posts)
  if new_news.isEmpty then ⟨logged_posts, none, none, 0⟩
  else
    let (succ, posted, failed, k) := initial_pass envs now 0 new_news
    let ledger := if posted.isEmpty then logged_posts else update_log logged_posts posted
    let readme := if posted.isEmpty then none
      else some (update_news_md existing_readme new_news)
    if failed.isEmpty then ⟨ledger, readme, none, succ⟩
    else
      let (rs, still, _) := retry_failed_posts envs k failed 3
      ⟨ledger, readme, if still.isEmpty then none else some still, succ + rs⟩

/-- The ledger invariant of the specification: no two entries share a url
and no two entries share a title. -/
def LedgerInv (L : List LedgerEntry) : Prop :=
  L.Pairwise fun a b => a.url ≠ b.url ∧ a.title ≠ b.title

theorem isEmpty_false_of_ne_nil {α : Type} {l : List α} (h : l ≠ []) :
    l.isEmpty = false := by
  cases l with
  | nil => exact absurd rfl h
  | cons c t => rfl

theorem splitFirst_some_append {sep s a b : Str}
    (h : splitFirst sep s = some (a, b)) : s = a ++ sep ++ b := by
  induction s generalizing a b with
  | nil =>
    by_cases hsep : sep = ([] : Str) <;>
      simp [splitFirst, hsep] at h
    simp [hsep, h.1, h.2]
  | cons c rest ih =>
    simp only [splitFirst] at h
    split at h
    · next hp =>
      simp only [Option.some.injEq, Prod.mk.injEq] at h
      obtain ⟨ha, hb⟩ := h
      subst ha
      rw [ List.isPrefixOf_iff_prefix] at hp
      obtain ⟨t, ht⟩ := hp
      simp only [List.nil_append]
      rw [← hb, ← ht, List.drop_left]
    · next hp =>
      cases hr : splitFirst sep rest with
      | none => rw [hr] at h; cases h
      | some p =>
        obtain ⟨a0, b0⟩ := p
        simp only [hr, Option.some.injEq, Prod.mk.injEq] at h
        obtain ⟨ha, hb⟩ := h
        subst hb
        rw [← ha, List.cons_append, List.cons_append, ih hr]

theorem pyStrip_ne_nil_of_head {c : Char} (hc : c.isWhitespace = false) (l : Str) :
    pyStrip (c :: l) ≠ [] := by
  unfold pyStrip
  rw [List.dropWhile_cons]
  simp only [hc, Bool.false_eq_true, if_false]
  intro hcontra
  rw [List.reverse_eq_nil_iff, List.dropWhile_eq_nil_iff] at hcontra
  have := hcontra c (by simp)
  rw [hc] at this
  cases this

theorem format_content_starts_div (title content : Str) (image_url : Option Str) :
    DIV_OPEN <+: format_content title content image_url := by
  simp only [format_content]
  exact ((List.prefix_append _ _).trans (List.prefix_append _ _)).trans
    (List.prefix_append _ _)

theorem format_content_ne_nil (title content : Str) (image_url : Option Str) :
    format_content title content image_url ≠ [] ∧
    pyStrip (format_content title content image_url) ≠ [] := by
  obtain ⟨rest, hrest⟩ := format_content_starts_div title content image_url
  have hshape : format_content title content image_url =
      '<' :: ("div style=\"font-family: Arial, sans-serif; line-height: 1.6;\">".toList
        ++ rest) := by
    rw [← hrest]; rfl
  rw [hshape]
  exact ⟨by simp, pyStrip_ne_nil_of_head (c := '<') rfl _⟩

/-- Common shape of `post_to_blogger` once credentials, blog access and the
title validation go through: the formatted content is never empty, so the
call proceeds to truncation and submission, succeeding exactly when the
platform accepts the insert. -/
theorem post_to_blogger_validated (env : BloggerEnv) (title content : Str)
    (img : Option Str) (hc : env.creds_ok = true) (hb : env.blog_access_ok = true)
    (ht : pyStrip title ≠ []) :
    post_to_blogger env title content img =
      (match env.insert_result with
       | some pid =>
         ⟨some pid,
          [.blogGet, .postInsert title (truncate_content (format_content title content img))],
          none⟩
       | none =>
         ⟨none,
          [.blogGet, .postInsert title (truncate_content (format_content title content img))],
          some ERR_POSTING⟩) := by
  obtain ⟨hfc1, hfc2⟩ := format_content_ne_nil title content img
  have htne : title ≠ [] := by
    intro h0; rw [h0] at ht; exact ht rfl
  simp only [post_to_blogger, hc, hb, Bool.not_true, Bool.false_eq_true, if_false,
    isEmpty_false_of_ne_nil hfc1, isEmpty_false_of_ne_nil hfc2,
    isEmpty_false_of_ne_nil htne, isEmpty_false_of_ne_nil ht,
    Bool.or_self, Bool.false_or, Bool.or_false]

/-- One retry pass partitions its input: successes plus survivors count the
whole batch, and the survivors are a sublist (order-preserving subset) of
the batch. -/
theorem retry_pass_partition (envs : Nat → BloggerEnv) :
    ∀ (k : Nat) (failed : List FailedPost),
      (retry_pass envs k failed).1 + (retry_pass envs k failed).2.1.length = failed.length ∧
      List.Sublist (retry_pass envs k failed).2.1 failed := by
  intro k failed
  induction failed generalizing k with
  | nil => simp [retry_pass]
  | cons p rest ih =>
    obtain ⟨h1, h2⟩ := ih (k + 1)
    rcases hrp : retry_pass envs (k + 1) rest with ⟨s, still, kf⟩
    rw [hrp] at h1 h2
    simp only at h1 h2
    simp only [retry_pass, hrp]
    cases hr : (post_to_blogger (envs k) p.title p.content p.image_url).post_id with
    | some pid =>
      refine ⟨by simp [List.length_cons]; omega, h2.cons p⟩
    | none =>
      refine ⟨by simp [List.length_cons]; omega, h2.cons₂ p⟩

/-- The whole retry loop partitions its input batch, whatever the attempt
budget. -/
theorem retry_failed_posts_partition (envs : Nat → BloggerEnv) :
    ∀ (n k : Nat) (failed : List FailedPost),
      (retry_failed_posts envs k failed n).1
          + (retry_failed_posts envs k failed n).2.1.length = failed.length ∧
      List.Sublist (retry_failed_posts envs k failed n).2.1 failed := by
  intro n
  induction n with
  | zero => intro k failed; simp [retry_failed_posts]
  | succ m ih =>
    intro k failed
    by_cases hf : failed.isEmpty
    · simp [retry_failed_posts, hf]
    · obtain ⟨hp1, hp2⟩ := retry_pass_partition envs k failed
      rcases hrp : retry_pass envs k failed with ⟨s, still, k1⟩
      rw [hrp] at hp1 hp2
      simp only at hp1 hp2
      obtain ⟨hi1, hi2⟩ := ih k1 still
      rcases hrr : retry_failed_posts envs k1 still m with ⟨s2, still2, k2⟩
      rw [hrr] at hi1 hi2
      simp only at hi1 hi2
      simp only [retry_failed_posts, hf, Bool.false_eq_true, if_false, hrp, hrr]
      exact ⟨by omega, hi2.trans hp2⟩

/-- The retry loop performs at most `n` batch passes. -/
theorem retry_iterations_le (envs : Nat → BloggerEnv) :
    ∀ (n k : Nat) (failed : List FailedPost),
      retry_iterations envs k failed n ≤ n := by
  intro n
  induction n with
  | zero => intro k failed; simp [retry_iterations]
  | succ m ih =>
    intro k failed
    by_cases hf : failed.isEmpty
    · simp [retry_iterations, hf]
    · rcases hrp : retry_pass envs k failed with ⟨s, still, k1⟩
      simp only [retry_iterations, hf, Bool.false_eq_true, if_false, hrp]
      have := ih k1 still
      omega

/-- The original ledger is a prefix of the updated ledger: `update_log`
never removes, rewrites or reorders existing entries. -/
theorem update_log_keeps_old (logged new_posts : List LedgerEntry) :
    logged <+: update_log logged new_posts := by
  induction new_posts generalizing logged with
  | nil => exact List.prefix_refl _
  | cons p ps ih =>
    simp only [update_log, List.foldl_cons]
    by_cases hmatch :
        (logged.any fun e => e.url == p.url || e.title == p.title) = true
    · rw [hmatch]
      exact ih logged
    · rw [Bool.not_eq_true] at hmatch
      rw [hmatch]
      simp only [Bool.false_eq_true, if_false]
      exact (List.prefix_append logged [p]).trans (ih (logged ++ [p]))

/-- Every entry of the updated ledger comes from the old ledger or from the
batch of new posts. -/
theorem update_log_mem (logged new_posts : List LedgerEntry) :
    ∀ e ∈ update_log logged new_posts, e ∈ logged ∨ e ∈ new_posts := by
  induction new_posts generalizing logged with
  | nil => intro e he; exact Or.inl he
  | cons p ps ih =>
    intro e he
    simp only [update_log, List.foldl_cons] at he
    by_cases hmatch :
        (logged.any fun x => x.url == p.url || x.title == p.title) = true
    · rw [hmatch] at he
      rcases ih logged e he with h | h
      · exact Or.inl h
      · exact Or.inr (List.mem_cons_of_mem p h)
    · rw [Bool.not_eq_true] at hmatch
      rw [hmatch] at he
      simp only [Bool.false_eq_true, if_false] at he
      rcases ih (logged ++ [p]) e he with h | h
      · rcases List.mem_append.mp h with h0 | h0
        · exact Or.inl h0
        · exact Or.inr (by simp at h0; simp [h0])
      · exact Or.inr (List.mem_cons_of_mem p h)

/-- `update_log` preserves the dedup invariant: the guard refuses any post
matching an existing entry on url or on title, so distinctness of both
fields survives each append. -/
theorem update_log_inv (new_posts : List LedgerEntry) :
    ∀ (logged : List LedgerEntry), LedgerInv logged →
      LedgerInv (update_log logged new_posts) := by
  induction new_posts with
  | nil => intro logged h; exact h
  | cons p ps ih =>
    intro logged h
    simp only [update_log, List.foldl_cons]
    by_cases hmatch :
        (logged.any fun e => e.url == p.url || e.title == p.title) = true
    · rw [hmatch]
      exact ih logged h
    · rw [Bool.not_eq_true] at hmatch
      rw [hmatch]
      simp only [Bool.false_eq_true, if_false]
      refine ih (logged ++ [p]) ?_
      rw [LedgerInv, List.pairwise_append]
      refine ⟨h, List.pairwise_singleton _ _, ?_⟩
      intro a ha b hb
      rw [List.mem_singleton] at hb
      subst hb
      have hfa := List.any_eq_false.mp hmatch a ha
      rw [Bool.or_eq_true, not_or] at hfa
      constructor
      · intro hu; exact hfa.1 (by rw [hu]; exact beq_self_eq_true _)
      · intro ht; exact hfa.2 (by rw [ht]; exact beq_self_eq_true _)

/-- C2: the pipeline's duplicate filter treats a candidate as already
posted exactly when some ledger entry matches its link by url or its title
by title — a match on either field alone suffices; equivalently, a
candidate survives the filter exactly when no entry matches either field. -/
theorem C2_dedup_filter_iff (news : NewsItem) (logged : List LedgerEntry) :
    (isNewItem logged news = false ↔
      ∃ post ∈ logged, post.url = news.link ∨ post.title = news.title) ∧
    ∀ items : List NewsItem,
      (news ∈ items.filter (isNewItem logged) ↔
        news ∈ items ∧ ∀ post ∈ logged, post.url ≠ news.link ∧ post.title ≠ news.title) := by
  constructor
  · simp [isNewItem, List.any_eq_true]
  · intro items
    simp [List.mem_filter, isNewItem, List.any_eq_false, not_or]

/-- C5: the retry coordinator performs at most `maxAttempts` batch passes
and partitions its input: the success count plus the number of still-failed
posts equals the input length, and the still-failed posts form a sublist
(order-preserving subset) of the input. -/
theorem C5_retry_terminates_partitions (envs : Nat → BloggerEnv) (k : Nat)
    (failed : List FailedPost) (maxAttempts : Nat) (hmax : 1 ≤ maxAttempts) :
    (retry_failed_posts envs k failed maxAttempts).1
        + (retry_failed_posts envs k failed maxAttempts).2.1.length = failed.length ∧
    List.Sublist (retry_failed_posts envs k failed maxAttempts).2.1 failed ∧
    retry_iterations envs k failed maxAttempts ≤ maxAttempts := by
  obtain ⟨h1, h2⟩ := retry_failed_posts_partition envs maxAttempts k failed
  exact ⟨h1, h2, retry_iterations_le envs maxAttempts k failed⟩

theorem C5_retry_witness :
    1 ≤ 3 ∧
    ((retry_failed_posts (fun _ => ⟨true, true, some ("p".toList)⟩) 0
          [⟨"t".toList, "c".toList, none⟩] 3).1
        + (retry_failed_posts (fun _ => ⟨true, true, some ("p".toList)⟩) 0
          [⟨"t".toList, "c".toList, none⟩] 3).2.1.length
        = [(⟨"t".toList, "c".toList, none⟩ : FailedPost)].length ∧
      List.Sublist (retry_failed_posts (fun _ => ⟨true, true, some ("p".toList)⟩) 0
          [⟨"t".toList, "c".toList, none⟩] 3).2.1
        [⟨"t".toList, "c".toList, none⟩] ∧
      retry_iterations (fun _ => ⟨true, true, some ("p".toList)⟩) 0
          [⟨"t".toList, "c".toList, none⟩] 3 ≤ 3) :=
  ⟨by decide,
    C5_retry_terminates_partitions (fun _ => ⟨true, true, some ("p".toList)⟩) 0
      [⟨"t".toList, "c".toList, none⟩] 3 (by decide)⟩

/-- C6: with credentials, blog access, a platform that accepts the insert
and a nonblank title, the publisher succeeds for every content — oversized
content is never rejected and never raises — and it submits the truncation
of the formatted content, whose length equals the 1,000,000-character limit
exactly whenever the formatted content exceeds it. -/
theorem C6_truncation_policy (env : BloggerEnv) (title content : Str)
    (img : Option Str) (pid : Str) (hc : env.creds_ok = true)
    (hb : env.blog_access_ok = true) (hi : env.insert_result = some pid)
    (ht : pyStrip title ≠ []) :
    (post_to_blogger env title content img).post_id = some pid ∧
    (post_to_blogger env title content img).calls =
      [.blogGet, .postInsert title (truncate_content (format_content title content img))] ∧
    ∀ fc : Str, MAX_CONTENT < fc.length → (truncate_content fc).length = MAX_CONTENT := by
  have h := post_to_blogger_validated env title content img hc hb ht
  rw [hi] at h
  refine ⟨by rw [h], by rw [h], ?_⟩
  intro fc hfc
  simp only [truncate_content, gt_iff_lt, hfc, if_true, List.length_take]
  omega

theorem C6_truncation_witness :
    pyStrip ("t".toList) ≠ [] ∧
    ((post_to_blogger ⟨true, true, some ("p".toList)⟩ ("t".toList) ("c".toList)
          none).post_id = some ("p".toList) ∧
      (post_to_blogger ⟨true, true, some ("p".toList)⟩ ("t".toList) ("c".toList)
          none).calls =
        [.blogGet, .postInsert ("t".toList)
          (truncate_content (format_content ("t".toList) ("c".toList) none))] ∧
      ∀ fc : Str, MAX_CONTENT < fc.length → (truncate_content fc).length = MAX_CONTENT) :=
  ⟨by decide,
    C6_truncation_policy ⟨true, true, some ("p".toList)⟩ ("t".toList) ("c".toList)
      none ("p".toList) rfl rfl rfl (by decide)⟩

/-- C9: appending a batch through the ledger update preserves the invariant
(no two entries share a url, no two share a title), keeps every existing
entry unchanged and in place (the old ledger is a prefix of the new one),
and adds only entries drawn from the new batch — nothing is removed or
rewritten. -/
theorem C9_ledger_append_invariant (logged new_posts : List LedgerEntry)
    (hinv : LedgerInv logged) :
    LedgerInv (update_log logged new_posts) ∧
    logged <+: update_log logged new_posts ∧
    ∀ e ∈ update_log logged new_posts, e ∈ logged ∨ e ∈ new_posts :=
  ⟨update_log_inv new_posts logged hinv, update_log_keeps_old logged new_posts,
    update_log_mem logged new_posts⟩

theorem C9_ledger_append_witness :
    LedgerInv [⟨"u1".toList, "t1".toList, "p1".toList, "d1".toList⟩] ∧
    (LedgerInv (update_log [⟨"u1".toList, "t1".toList, "p1".toList, "d1".toList⟩]
        [⟨"u1".toList, "t9".toList, "p9".toList, "d9".toList⟩,
         ⟨"u2".toList, "t2".toList, "p2".toList, "d2".toList⟩]) ∧
      [(⟨"u1".toList, "t1".toList, "p1".toList, "d1".toList⟩ : LedgerEntry)] <+:
        update_log [⟨"u1".toList, "t1".toList, "p1".toList, "d1".toList⟩]
          [⟨"u1".toList, "t9".toList, "p9".toList, "d9".toList⟩,
           ⟨"u2".toList, "t2".toList, "p2".toList, "d2".toList⟩] ∧
      ∀ e ∈ update_log [⟨"u1".toList, "t1".toList, "p1".toList, "d1".toList⟩]
          [⟨"u1".toList, "t9".toList, "p9".toList, "d9".toList⟩,
           ⟨"u2".toList, "t2".toList, "p2".toList, "d2".toList⟩],
        e ∈ [(⟨"u1".toList, "t1".toList, "p1".toList, "d1".toList⟩ : LedgerEntry)] ∨
        e ∈ [⟨"u1".toList, "t9".toList, "p9".toList, "d9".toList⟩,
             ⟨"u2".toList, "t2".toList, "p2".toList, "d2".toList⟩]) :=
  ⟨by simp [LedgerInv],
    C9_ledger_append_invariant _ _ (by simp [LedgerInv])⟩

/-- C10: the formatted content always begins with the wrapper div markup,
hence is non-empty, so the publisher's empty-content error branch is
unreachable for every input — an empty body is never rejected by the
content validation. -/
theorem C10_empty_content_unreachable (env : BloggerEnv) (title content : Str)
    (img : Option Str) :
    DIV_OPEN <+: format_content title content img ∧
    format_content title content img ≠ [] ∧
    (post_to_blogger env title content img).error_msg ≠ some ERR_EMPTY_CONTENT := by
  obtain ⟨hne, hstrip⟩ := format_content_ne_nil title content img
  refine ⟨format_content_starts_div title content img, hne, ?_⟩
  cases hc : env.creds_ok with
  | false => simp only [post_to_blogger, hc, Bool.not_false, if_true]; decide
  | true =>
    cases hb : env.blog_access_ok with
    | false =>
      simp only [post_to_blogger, hc, hb, Bool.not_true, Bool.false_eq_true, if_false,
        Bool.not_false, if_true]
      decide
    | true =>
      simp only [post_to_blogger, hc, hb, Bool.not_true, Bool.false_eq_true, if_false,
        isEmpty_false_of_ne_nil hne, isEmpty_false_of_ne_nil hstrip, Bool.or_self]
      cases htt : (title.isEmpty || (pyStrip title).isEmpty) with
      | true => simp only [if_true]; decide
      | false =>
        simp only [Bool.false_eq_true, if_false]
        cases env.insert_result with
        | some pid => simp
        | none => simp only; decide

/-- C3 counterexample: with working credentials and blog access, publishing
with an empty title does fail, but only after the blog-access network call
(the call list is non-empty); and publishing with empty content is not
rejected at all — it succeeds — because validation runs on the formatted
content, which is never empty. -/
theorem C3_counterexample :
    ((post_to_blogger ⟨true, true, some ("pid1".toList)⟩ [] ("x".toList) none).post_id
        = none ∧
      (post_to_blogger ⟨true, true, some ("pid1".toList)⟩ [] ("x".toList) none).calls
        ≠ []) ∧
    (post_to_blogger ⟨true, true, some ("pid1".toList)⟩ ("t".toList) [] none).post_id
      = some ("pid1".toList) := by
  decide

/-- C3 amended: publishing with a blank title returns a failure outcome,
but only after credential acquisition and the blog-access verification
network call; publishing with empty content is never rejected by the
validation — the formatted content is non-empty — and succeeds whenever
the platform accepts the insert. -/
theorem C3_validation_after_network (env : BloggerEnv) (title content : Str)
    (img : Option Str) (hc : env.creds_ok = true) (hb : env.blog_access_ok = true) :
    (pyStrip title = [] →
      post_to_blogger env title content img =
        ⟨none, [.blogGet], some ERR_EMPTY_TITLE⟩) ∧
    (∀ pid : Str, env.insert_result = some pid → pyStrip title ≠ [] →
      (post_to_blogger env title [] img).post_id = some pid) := by
  constructor
  · intro ht
    obtain ⟨hne, hstrip⟩ := format_content_ne_nil title content img
    simp only [post_to_blogger, hc, hb, Bool.not_true, Bool.false_eq_true, if_false,
      isEmpty_false_of_ne_nil hne, isEmpty_false_of_ne_nil hstrip, Bool.or_self,
      ht, List.isEmpty_nil, Bool.or_true, if_true]
  · intro pid hpid ht
    have h := post_to_blogger_validated env title [] img hc hb ht
    rw [hpid] at h
    rw [h]

theorem C3_validation_witness :
    (⟨true, true, some ("pid1".toList)⟩ : BloggerEnv).creds_ok = true ∧
    (⟨true, true, some ("pid1".toList)⟩ : BloggerEnv).blog_access_ok = true ∧
    ((pyStrip ("  ".toList) = [] →
        post_to_blogger ⟨true, true, some ("pid1".toList)⟩ ("  ".toList) ("x".toList)
            none = ⟨none, [.blogGet], some ERR_EMPTY_TITLE⟩) ∧
      (∀ pid : Str, (⟨true, true, some ("pid1".toList)⟩ : BloggerEnv).insert_result
          = some pid → pyStrip ("  ".toList) ≠ [] →
        (post_to_blogger ⟨true, true, some ("pid1".toList)⟩ ("  ".toList) [] none).post_id
          = some pid)) :=
  ⟨rfl, rfl,
    C3_validation_after_network ⟨true, true, some ("pid1".toList)⟩ ("  ".toList)
      ("x".toList) none rfl rfl⟩

/-- C4 counterexample: updating a marker-less document (here `"hello"`)
does not keep the prior document as dynamic content — the prior text occurs
nowhere in the result, and the result differs from the rendered entries
followed by the prior document. -/
theorem C4_counterexample :
    containsSub ("hello".toList)
        (update_news_md (some ("hello".toList))
          [⟨"u".toList, "T4".toList, "d4".toList, "s".toList, none, "B4".toList⟩])
      = false ∧
    update_news_md (some ("hello".toList))
        [⟨"u".toList, "T4".toList, "d4".toList, "s".toList, none, "B4".toList⟩]
      ≠ format_news_to_markdown
          [⟨"u".toList, "T4".toList, "d4".toList, "s".toList, none, "B4".toList⟩]
        ++ "hello".toList := by
  decide

/-- C4 amended: when the existing document does not contain both boundary
markers, the prior document is DISCARDED entirely rather than treated as
dynamic content: the new document is exactly a newline, the rendered new
entries, and a newline. -/
theorem C4_markers_absent_discards (content : Str) (items : List NewsItem)
    (h : (containsSub MARKER_START content && containsSub MARKER_END content)
      = false) :
    update_news_md (some content) items =
      "\n".toList ++ format_news_to_markdown items ++ "\n".toList := by
  simp only [update_news_md, h, Bool.false_eq_true, if_false]
  simp

theorem C4_markers_absent_witness :
    (containsSub MARKER_START ("hello".toList)
        && containsSub MARKER_END ("hello".toList)) = false ∧
    update_news_md (some ("hello".toList)) [] =
      "\n".toList ++ format_news_to_markdown [] ++ "\n".toList :=
  ⟨by decide, C4_markers_absent_discards ("hello".toList) [] (by decide)⟩

/-- C7 counterexample: for the document
`"<!-- STATIC-START -->A<!-- STATIC-END --> x "` whose dynamic suffix is
`" x "`, the updated document does not end with the original dynamic
content unchanged (it is whitespace-stripped), refuting byte-for-byte
preservation of the dynamic suffix. -/
theorem C7_counterexample :
    ¬ (" x ".toList <:+
        update_news_md
          (some ("<!-- STATIC-START -->A<!-- STATIC-END --> x ".toList))
          [⟨"u".toList, "T7".toList, "d7".toList, "s".toList, none, "B7".toList⟩]) := by
  decide

/-- C7 amended: for a document containing the start marker and exactly one
occurrence of the end marker, the update preserves the prefix up to and
including the end marker byte-for-byte, then inserts a newline, the
rendered sections for the new items, a newline, and finally the
whitespace-STRIPPED (not verbatim) original dynamic content. -/
theorem C7_boundary_preservation (content S D : Str) (items : List NewsItem)
    (hstart : containsSub MARKER_START content = true)
    (hsplit : splitFirst MARKER_END content = some (S, D))
    (honce : splitFirst MARKER_END D = none) :
    content = S ++ MARKER_END ++ D ∧
    update_news_md (some content) items =
      (S ++ MARKER_END) ++ "\n".toList ++ format_news_to_markdown items
        ++ "\n".toList ++ pyStrip D := by
  have hend : containsSub MARKER_END content = true := by
    simp [containsSub, hsplit]
  refine ⟨splitFirst_some_append hsplit, ?_⟩
  simp only [update_news_md, hstart, hend, Bool.and_self, if_true, hsplit, honce]

theorem C7_boundary_witness :
    containsSub MARKER_START
        ("<!-- STATIC-START -->A<!-- STATIC-END -->B".toList) = true ∧
    splitFirst MARKER_END ("<!-- STATIC-START -->A<!-- STATIC-END -->B".toList)
      = some ("<!-- STATIC-START -->A".toList, "B".toList) ∧
    splitFirst MARKER_END ("B".toList) = none ∧
    ("<!-- STATIC-START -->A<!-- STATIC-END -->B".toList =
        "<!-- STATIC-START -->A".toList ++ MARKER_END ++ "B".toList ∧
      update_news_md (some ("<!-- STATIC-START -->A<!-- STATIC-END -->B".toList)) []
        = ("<!-- STATIC-START -->A".toList ++ MARKER_END) ++ "\n".toList
            ++ format_news_to_markdown [] ++ "\n".toList ++ pyStrip ("B".toList)) :=
  ⟨by decide, by decide, by decide,
    C7_boundary_preservation _ _ _ [] (by decide) (by decide) (by decide)⟩

/-- C8 counterexample: a non-200 article fetch yields the EMPTY string as
the item's body, not the `"Full content not found."` marker the claim
names; the item is still produced with that empty body. -/
theorem C8_counterexample :
    fetch_full_content ⟨404, none⟩ = [] ∧
    fetch_full_content ⟨404, none⟩ ≠ FULL_NOT_FOUND ∧
    fetch_news ⟨200, [⟨"u".toList, "t8".toList, "d8".toList, "s".toList, none⟩],
        fun _ => ⟨404, none⟩⟩
      = [⟨"u".toList, "t8".toList, "d8".toList, "s".toList, none, []⟩] := by
  decide

/-- C8 amended: a failed (non-200) fetch of an individual article page
degrades that item's body to the EMPTY string — the explicit marker is
reserved for pages that load but lack the content container — and the item
is still produced, never aborting the whole collection. -/
theorem C8_article_fetch_degrades (env : ScrapeEnv) (e : ListingEntry)
    (hl : env.listing_status = 200) (he : e ∈ env.listing_entries)
    (hf : (env.article_page e.link).status_code ≠ 200) :
    fetch_full_content (env.article_page e.link) = [] ∧
    (⟨e.link, e.title, e.date, e.short_desc, e.image_url, []⟩ : NewsItem)
      ∈ fetch_news env ∧
    ∀ page : ArticlePage, page.status_code = 200 → page.body_div = none →
      fetch_full_content page = FULL_NOT_FOUND := by
  have hffc : fetch_full_content (env.article_page e.link) = [] := by
    simp [fetch_full_content, hf]
  refine ⟨hffc, ?_, ?_⟩
  · have hcond : ¬ (env.listing_status ≠ 200) := by simp [hl]
    simp only [fetch_news, if_neg hcond]
    exact List.mem_map.mpr ⟨e, he, by rw [hffc]⟩
  · intro page h200 hdiv
    simp [fetch_full_content, h200, hdiv]

theorem C8_article_fetch_witness :
    (⟨200, [⟨"u".toList, "t8".toList, "d8".toList, "s".toList, none⟩],
        fun _ => ⟨404, none⟩⟩ : ScrapeEnv).listing_status = 200 ∧
    (⟨"u".toList, "t8".toList, "d8".toList, "s".toList, none⟩ : ListingEntry) ∈
      (⟨200, [⟨"u".toList, "t8".toList, "d8".toList, "s".toList, none⟩],
        fun _ => ⟨404, none⟩⟩ : ScrapeEnv).listing_entries ∧
    ((⟨200, [⟨"u".toList, "t8".toList, "d8".toList, "s".toList, none⟩],
        fun _ => ⟨404, none⟩⟩ : ScrapeEnv).article_page
          ("u".toList)).status_code ≠ 200 ∧
    (fetch_full_content ((⟨200,
          [⟨"u".toList, "t8".toList, "d8".toList, "s".toList, none⟩],
          fun _ => ⟨404, none⟩⟩ : ScrapeEnv).article_page
        (⟨"u".toList, "t8".toList, "d8".toList, "s".toList,
          none⟩ : ListingEntry).link) = [] ∧
      (⟨"u".toList, "t8".toList, "d8".toList, "s".toList, none, []⟩ : NewsItem) ∈
        fetch_news ⟨200, [⟨"u".toList, "t8".toList, "d8".toList, "s".toList, none⟩],
          fun _ => ⟨404, none⟩⟩ ∧
      ∀ page : ArticlePage, page.status_code = 200 → page.body_div = none →
        fetch_full_content page = FULL_NOT_FOUND) :=
  ⟨rfl, by decide, by decide,
    C8_article_fetch_degrades
      ⟨200, [⟨"u".toList, "t8".toList, "d8".toList, "s".toList, none⟩],
        fun _ => ⟨404, none⟩⟩
      ⟨"u".toList, "t8".toList, "d8".toList, "s".toList, none⟩
      rfl (by decide) (by decide)⟩

/-- Field characterisation of `main_pipeline`: the final ledger and README
contents depend only on the initial-pass successes — the retry phase never
touches either file. -/
theorem main_pipeline_fields (envs : Nat → BloggerEnv) (now : Str)
    (news_items : List NewsItem) (logged : List LedgerEntry) (readme : Option Str) :
    (main_pipeline envs now news_items logged readme).ledger =
      (if ((initial_pass envs now 0 (news_items.filter (isNewItem logged))).2.1).isEmpty
        then logged
        else update_log logged
          (initial_pass envs now 0 (news_items.filter (isNewItem logged))).2.1) ∧
    (main_pipeline envs now news_items logged readme).readme =
      (if ((initial_pass envs now 0 (news_items.filter (isNewItem logged))).2.1).isEmpty
        then none
        else some (update_news_md readme (news_items.filter (isNewItem logged)))) := by
  simp only [main_pipeline]
  by_cases hnew : (news_items.filter (isNewItem logged)).isEmpty = true
  · have hfil : news_items.filter (isNewItem logged) = [] := by
      cases hfe : news_items.filter (isNewItem logged) with
      | nil => rfl
      | cons x xs => rw [hfe] at hnew; cases hnew
    rw [if_pos hnew]
    simp [hfil, initial_pass]
  · rw [Bool.not_eq_true] at hnew
    rw [if_neg (by rw [hnew]; exact Bool.false_ne_true)]
    rcases hip : initial_pass envs now 0 (news_items.filter (isNewItem logged)) with
      ⟨succ, posted, failed, k⟩
    simp only [hip]
    by_cases hfailed : failed.isEmpty = true
    · rw [if_pos hfailed]
      constructor <;> trivial
    · rw [if_neg hfailed]
      rcases hr : retry_failed_posts envs k failed 3 with ⟨rs, still, k2⟩
      simp only [hr]
      constructor <;> trivial

/-- C1 counterexample.  Scenario A: two fresh items; the first publishes on
its initial attempt, the second fails initially and succeeds on the first
retry — the run reports 2 successes and no permanent failures, yet the
ledger records only the first item, refuting "an item published
successfully on any retry attempt gets a ledger entry".  Scenario B: the
second item fails permanently — it is recorded in the failed-posts file,
yet the digest still receives its `## t2` section, refuting "an item that
was not successfully published gets neither". -/
theorem C1_counterexample :
    (let runA := main_pipeline
        (fun k => if k = 0 then ⟨true, true, some ("p1".toList)⟩
          else if k = 1 then ⟨true, true, none⟩
          else ⟨true, true, some ("p2".toList)⟩)
        ("now".toList)
        [⟨"u1".toList, "t1".toList, "d1".toList, "s1".toList, none, "b1".toList⟩,
         ⟨"u2".toList, "t2".toList, "d2".toList, "s2".toList, none, "b2".toList⟩]
        [] none
     runA.successful_posts = 2 ∧ runA.failed_file = none ∧
       runA.ledger = [⟨"u1".toList, "t1".toList, "p1".toList, "now".toList⟩]) ∧
    (let runB := main_pipeline
        (fun k => if k = 0 then ⟨true, true, some ("p1".toList)⟩
          else ⟨true, true, none⟩)
        ("now".toList)
        [⟨"u1".toList, "t1".toList, "d1".toList, "s1".toList, none, "b1".toList⟩,
         ⟨"u2".toList, "t2".toList, "d2".toList, "s2".toList, none, "b2".toList⟩]
        [] none
     runB.failed_file ≠ none ∧
       containsSub ("## t2".toList) (runB.readme.getD []) = true) := by
  decide

/-- C1 amended: ledger entries are created exactly for the items that
succeed on the INITIAL attempt — every final ledger entry comes from the
prior ledger or from the initial-pass successes, so retry successes are
never recorded; the digest is either untouched or rewritten with sections
for ALL filtered new items (even unpublished ones); and when no item
succeeds on the initial pass neither ledger nor digest is touched, even if
retries later succeed. -/
theorem C1_ledger_digest_policy (envs : Nat → BloggerEnv) (now : Str)
    (news_items : List NewsItem) (logged : List LedgerEntry) (readme : Option Str) :
    (∀ e ∈ (main_pipeline envs now news_items logged readme).ledger,
        e ∈ logged ∨
          e ∈ (initial_pass envs now 0 (news_items.filter (isNewItem logged))).2.1) ∧
    ((main_pipeline envs now news_items logged readme).readme = none ∨
      (main_pipeline envs now news_items logged readme).readme =
        some (update_news_md readme (news_items.filter (isNewItem logged)))) ∧
    ((initial_pass envs now 0 (news_items.filter (isNewItem logged))).2.1 = [] →
      (main_pipeline envs now news_items logged readme).ledger = logged ∧
      (main_pipeline envs now news_items logged readme).readme = none) := by
  obtain ⟨hl, hr⟩ := main_pipeline_fields envs now news_items logged readme
  refine ⟨?_, ?_, ?_⟩
  · intro e he
    rw [hl] at he
    by_cases hp :
        ((initial_pass envs now 0 (news_items.filter (isNewItem logged))).2.1).isEmpty
          = true
    · rw [if_pos hp] at he
      exact Or.inl he
    · rw [if_neg hp] at he
      exact update_log_mem _ _ e he
  · rw [hr]
    by_cases hp :
        ((initial_pass envs now 0 (news_items.filter (isNewItem logged))).2.1).isEmpty
          = true
    · rw [if_pos hp]; exact Or.inl rfl
    · rw [if_neg hp]; exact Or.inr rfl
  · intro hnil
    have hp :
        ((initial_pass envs now 0 (news_items.filter (isNewItem logged))).2.1).isEmpty
          = true := by rw [hnil]; rfl
    rw [hl, hr, if_pos hp, if_pos hp]
    exact ⟨rfl, rfl⟩

end AdaLK
